import Mathlib

/-!
Shallow embedding of the polling bot in `homework.py` / `exceptions.py`.

Python values are modelled by the inductive type `Py`, Python exceptions by
`Exc`, and each function of the source is translated to a Lean function of
the same name.  The two external collaborators (the HTTP transport behind
`requests.get` and the Telegram transport behind `bot.send_message`) are
supplied to the embedded functions as explicit oracle inputs; everything
else is translated directly from the source.
-/

/-- Python values that occur in the program: `None`, integers, strings,
lists, and string-keyed dictionaries (modelled as association lists with
distinct keys, in insertion order). -/
inductive Py where
  | none : Py
  | int : Int → Py
  | str : String → Py
  | list : List Py → Py
  | dict : List (String × Py) → Py

/-- Python `x is None`. -/
def Py.isNone : Py → Bool
  | Py.none => true
  | _ => false

/-- Python `isinstance(x, dict)`. -/
def Py.isDict : Py → Bool
  | Py.dict _ => true
  | _ => false

/-- Python `isinstance(x, list)`. -/
def Py.isList : Py → Bool
  | Py.list _ => true
  | _ => false

/-- Name of the Python type of a value, as it appears inside `str(type(x))`. -/
def pyTypeName : Py → String
  | Py.none => "NoneType"
  | Py.int _ => "int"
  | Py.str _ => "str"
  | Py.list _ => "list"
  | Py.dict _ => "dict"

/-- The single-quote character. -/
def squote : Char := "\x27".front

/-- The double-quote character. -/
def dquote : Char := "\"".front

/-- Python `repr` of a string: backslashes escaped, single-quoted, switching
to double quotes when the string contains a single quote but no double
quote (control-character escaping is not needed for the texts that occur in
this program). -/
def strReprPy (s : String) : String :=
  let esc := s.replace "\x5c" "\x5c\x5c"
  if s.contains squote && !(s.contains dquote) then "\"" ++ esc ++ "\""
  else "\x27" ++ esc.replace "\x27" "\x5c\x27" ++ "\x27"

mutual

/-- Python `str(x)`, as used by f-string interpolation. -/
def pyStrOf : Py → String
  | Py.none => "None"
  | Py.int n => toString n
  | Py.str s => s
  | Py.list xs => "[" ++ pyCommaList xs ++ "]"
  | Py.dict es => "\x7b" ++ pyCommaDict es ++ "\x7d"

/-- Python `repr(x)`, as used for values nested inside containers. -/
def pyRepr : Py → String
  | Py.none => "None"
  | Py.int n => toString n
  | Py.str s => strReprPy s
  | Py.list xs => "[" ++ pyCommaList xs ++ "]"
  | Py.dict es => "\x7b" ++ pyCommaDict es ++ "\x7d"

/-- Comma-separated reprs of the elements of a list. -/
def pyCommaList : List Py → String
  | [] => ""
  | [x] => pyRepr x
  | x :: y :: xs => pyRepr x ++ ", " ++ pyCommaList (y :: xs)

/-- Comma-separated `key: value` reprs of the entries of a dict. -/
def pyCommaDict : List (String × Py) → String
  | [] => ""
  | [kv] => strReprPy kv.1 ++ ": " ++ pyRepr kv.2
  | kv :: e :: es => strReprPy kv.1 ++ ": " ++ pyRepr kv.2 ++ ", " ++ pyCommaDict (e :: es)

end

/-- Python `d.get(key)` on a string-keyed dict: the bound value, or `None`
when the key is absent. -/
def pyDictGet (entries : List (String × Py)) (key : String) : Py :=
  match entries.find? (fun kv => kv.1 == key) with
  | some kv => kv.2
  | Option.none => Py.none

/-- Python `str(d.keys())`, e.g. `dict_keys([\x27homeworks\x27])`. -/
def keysRepr (entries : List (String × Py)) : String :=
  "dict_keys([" ++ String.intercalate ", " (entries.map (fun kv => strReprPy kv.1)) ++ "])"

/-- Exceptions raised by the program: the four classes of `exceptions.py`
plus the built-in exceptions the code raises or triggers, each carrying its
single string argument. -/
inductive Exc where
  | typeError : String → Exc
  | keyError : String → Exc
  | attributeError : String → Exc
  | statusCodeError : String → Exc
  | requestError : String → Exc
  | homeworkStatusError : String → Exc
  | telegramSendMessageError : String → Exc
  deriving DecidableEq

/-- The Python class name of an exception. -/
def excName : Exc → String
  | Exc.typeError _ => "TypeError"
  | Exc.keyError _ => "KeyError"
  | Exc.attributeError _ => "AttributeError"
  | Exc.statusCodeError _ => "StatusCodeError"
  | Exc.requestError _ => "RequestError"
  | Exc.homeworkStatusError _ => "HomeworkStatusError"
  | Exc.telegramSendMessageError _ => "TelegramSendMessageError"

/-- The single string argument of an exception. -/
def excMsg : Exc → String
  | Exc.typeError m => m
  | Exc.keyError m => m
  | Exc.attributeError m => m
  | Exc.statusCodeError m => m
  | Exc.requestError m => m
  | Exc.homeworkStatusError m => m
  | Exc.telegramSendMessageError m => m

/-- Python `repr(exc)` for an exception constructed with one string
argument: `ClassName(repr(arg))`. -/
def excRepr (e : Exc) : String := excName e ++ "(" ++ strReprPy (excMsg e) ++ ")"

/-- The EMPTY_TOKEN constant of `homework.py`. -/
def EMPTY_TOKEN : String :=
  "Отсутствует один из обязательных токенов. " ++
  "Необходимо проверить наличие для продолжения работы."

/-- The fixed API endpoint URL of `homework.py`. -/
def ENDPOINT : String := "https://practicum.yandex.ru/api/user_api/homework_statuses/"

/-- REQUEST_ERROR template applied to its keyword arguments. -/
def REQUEST_ERROR_fmt (url params err : String) : String :=
  "Запросе к URL " ++ url ++ " с параметрами " ++ params ++ " вернул ошибку " ++ err

/-- INCORRECT_STATUS template applied to its keyword argument. -/
def INCORRECT_STATUS_fmt (status : Nat) : String :=
  "Запрос вернул некорректный статус " ++ toString status ++ "."

/-- TYPE_ERROR template applied to its keyword arguments; Python renders a
type object as `<class \x27name\x27>`. -/
def TYPE_ERROR_fmt (expected received : String) : String :=
  "Некорректный тип данных. Ожидался <class \x27" ++ expected ++ "\x27>. " ++
  "Был получен <class \x27" ++ received ++ "\x27>."

/-- KEY_ERROR template applied to its keyword arguments. -/
def KEY_ERROR_fmt (dictionary keys : String) : String :=
  "Отсутствует ключ необходимый ключ в словаре " ++ dictionary ++ ". " ++
  "Доступные ключи " ++ keys ++ "."

/-- SEND_MESSAGE_ERROR template applied to its keyword arguments. -/
def SEND_MESSAGE_ERROR_fmt (message chatId : String) : String :=
  "Не удалось отправить сообщение " ++ message ++ " в чат " ++ chatId ++ "."

/-- The verdict table HOMEWORK_VERDICTS of `homework.py`. -/
def HOMEWORK_VERDICTS : List (String × String) :=
  [("approved", "Работа проверена: ревьюеру всё понравилось. Ура!"),
   ("reviewing", "Работа взята на проверку ревьюером."),
   ("rejected", "Работа проверена: у ревьюера есть замечания.")]

/-- Python `status in HOMEWORK_VERDICTS` (dict key membership; all keys are
strings, so only an equal string is a member). -/
def statusInVerdicts (status : Py) : Bool :=
  match status with
  | Py.str s => HOMEWORK_VERDICTS.any (fun kv => kv.1 == s)
  | _ => false

/-- Python `HOMEWORK_VERDICTS.get(status)`. -/
def verdictGet (status : Py) : Py :=
  match status with
  | Py.str s =>
    match HOMEWORK_VERDICTS.find? (fun kv => kv.1 == s) with
    | some kv => Py.str kv.2
    | Option.none => Py.none
  | _ => Py.none

/-- Python truthiness of an optional environment string: a missing variable
(`None`) and the empty string are falsy, every other string is truthy. -/
def truthyStr : Option String → Bool
  | Option.none => false
  | some s => if s = "" then false else true

/-- `check_tokens()`: `all([PRACTICUM_TOKEN, TELEGRAM_TOKEN, TELEGRAM_CHAT_ID])`,
with the three environment values passed explicitly. -/
def check_tokens (practicumToken telegramToken telegramChatId : Option String) : Bool :=
  truthyStr practicumToken && truthyStr telegramToken && truthyStr telegramChatId

/-- Outcome of the HTTP transport behind `requests.get`: either the request
itself fails (`requests.RequestException`, carrying its display text), or a
response arrives with a status code and a JSON body. -/
inductive HttpOutcome where
  | failure (errText : String)
  | success (statusCode : Nat) (body : Py)

/-- `get_api_answer(timestamp)`: raises `RequestError` when the transport
fails, raises `StatusCodeError` when the status code is not `HTTPStatus.OK`
(200), and otherwise returns the parsed JSON body unvalidated.  The query
payload is the dict with the single key `from_date` bound to `timestamp`. -/
def get_api_answer (timestamp : Py) (outcome : HttpOutcome) : Except Exc Py :=
  match outcome with
  | HttpOutcome.failure errText =>
    Except.error (Exc.requestError
      (REQUEST_ERROR_fmt ENDPOINT (pyStrOf (Py.dict [("from_date", timestamp)])) errText))
  | HttpOutcome.success code body =>
    if code ≠ 200 then
      Except.error (Exc.statusCodeError (INCORRECT_STATUS_fmt code))
    else
      Except.ok body

/-- `check_response(response)`: `TypeError` when the response is not a dict,
`KeyError` when `response.get` yields `None` for the key `homeworks`,
`TypeError` when the `homeworks` value is not a list, and otherwise the
full list. -/
def check_response (response : Py) : Except Exc (List Py) :=
  match response with
  | Py.dict entries =>
    match pyDictGet entries "homeworks" with
    | Py.none => Except.error (Exc.keyError (KEY_ERROR_fmt "response" (keysRepr entries)))
    | Py.list homeworks => Except.ok homeworks
    | homeworks => Except.error (Exc.typeError (TYPE_ERROR_fmt "list" (pyTypeName homeworks)))
  | response => Except.error (Exc.typeError (TYPE_ERROR_fmt "dict" (pyTypeName response)))

/-- `parse_status(homework)`.  Note: in the unknown-status branch the source
calls `HOMEWORK_STATUS_ERROR.format(status=..., received_keys=...)`, but
that template interpolates a `dictionary` field that is not among the
keyword arguments, so `str.format` itself raises `KeyError` with argument
`dictionary` before the intended `HomeworkStatusError` is constructed.
Calling `.get` on a non-dict value raises `AttributeError`. -/
def parse_status (homework : Py) : Except Exc String :=
  match homework with
  | Py.dict entries =>
    let status := pyDictGet entries "status"
    let homework_name := pyDictGet entries "homework_name"
    if status.isNone || homework_name.isNone then
      Except.error (Exc.keyError (KEY_ERROR_fmt "homework" (keysRepr entries)))
    else if !(statusInVerdicts status) then
      Except.error (Exc.keyError "dictionary")
    else
      Except.ok ("Изменился статус проверки работы \"" ++ pyStrOf homework_name ++ "\". "
        ++ pyStrOf (verdictGet status))
  | other =>
    Except.error (Exc.attributeError
      ("\x27" ++ pyTypeName other ++ "\x27 object has no attribute \x27get\x27"))

/-- `send_message(bot, message)`: the transport outcome of the underlying
`bot.send_message` call is the oracle `ok`; on transport failure the
function logs the underlying error and raises `TelegramSendMessageError`
with the formatted SEND_MESSAGE_ERROR text. -/
def send_message (chatId : String) (ok : Bool) (message : String) : Except Exc Unit :=
  if ok then Except.ok ()
  else Except.error (Exc.telegramSendMessageError (SEND_MESSAGE_ERROR_fmt message chatId))

/-- The mutable local state of `main`: the poll cursor `timestamp` and
`last_error_message`. -/
structure LoopState where
  timestamp : Py
  last_error_message : String

/-- Observable actions of one pass of the `while True` loop of `main`:
a successful notification send, an error-level log of a repr-formatted
`TelegramSendMessageError`, the info-level LAST_ERROR log emitted when the
formatted failure text equals `last_error_message`, and the fixed
`time.sleep(RETRY_PERIOD)` that ends every pass. -/
inductive CycleEvent where
  | sent (message : String)
  | tgErrorLogged (text : String)
  | errorUnchangedLogged
  | slept
  deriving DecidableEq

/-- Python `response.get(key)`; in `main` this is only reached once
`check_response` has established that the response is a dict. -/
def responseGet (response : Py) (key : String) : Py :=
  match response with
  | Py.dict entries => pyDictGet entries key
  | _ => Py.none

/-- Diagnostic text built by the generic exception handler of `main`:
the fixed Russian prefix followed by `repr(error)`. -/
def failureMessage (e : Exc) : String := "Сбой в работе программы: " ++ excRepr e

/-- The `for homework in homeworks` body of `main`: translate the item,
send the message, then assign `timestamp = response.get(current_date)`;
a raised exception aborts the remaining iterations.  Arguments thread the
current timestamp and the index of the next Telegram send attempt (used to
query the oracle `sendOk`); the result carries the final timestamp, the
next send index, the emitted events, and the escaped exception if any. -/
def forLoop (chatId : String) (sendOk : Nat → Bool) (currentDate : Py) :
    List Py → Py → Nat → Py × Nat × List CycleEvent × Option Exc
  | [], ts, k => (ts, k, [], Option.none)
  | hw :: rest, ts, k =>
    match parse_status hw with
    | Except.error e => (ts, k, [], some e)
    | Except.ok message =>
      match send_message chatId (sendOk k) message with
      | Except.error e => (ts, k + 1, [], some e)
      | Except.ok _ =>
        match forLoop chatId sendOk currentDate rest currentDate (k + 1) with
        | (ts2, k2, evs, exc) => (ts2, k2, CycleEvent.sent message :: evs, exc)

/-- The `try` block of one pass of `main`: poll, validate, then run the
for loop over the review items. -/
def tryBody (chatId : String) (sendOk : Nat → Bool) (outcome : HttpOutcome)
    (st : LoopState) : Py × Nat × List CycleEvent × Option Exc :=
  match get_api_answer st.timestamp outcome with
  | Except.error e => (st.timestamp, 0, [], some e)
  | Except.ok response =>
    match check_response response with
    | Except.error e => (st.timestamp, 0, [], some e)
    | Except.ok homeworks =>
      forLoop chatId sendOk (responseGet response "current_date") homeworks st.timestamp 0

/-- The exception handlers and `finally` clause of one pass of `main`:
a `TelegramSendMessageError` is only logged; any other exception is
formatted with `failureMessage` and, when the text differs from
`last_error_message`, recorded and sent (a send failure there being caught
and logged); when the text is unchanged it is only logged.  Every pass ends
with the fixed sleep. -/
def handleAttempt (chatId : String) (sendOk : Nat → Bool) (st : LoopState)
    (attempt : Py × Nat × List CycleEvent × Option Exc) : LoopState × List CycleEvent :=
  match attempt with
  | (ts, _, evs, Option.none) =>
    (⟨ts, st.last_error_message⟩, evs ++ [CycleEvent.slept])
  | (ts, _, evs, some (Exc.telegramSendMessageError m)) =>
    (⟨ts, st.last_error_message⟩,
     evs ++ [CycleEvent.tgErrorLogged (excRepr (Exc.telegramSendMessageError m)),
             CycleEvent.slept])
  | (ts, k, evs, some e) =>
    let message := failureMessage e
    if message = st.last_error_message then
      (⟨ts, st.last_error_message⟩,
       evs ++ [CycleEvent.errorUnchangedLogged, CycleEvent.slept])
    else
      match send_message chatId (sendOk k) message with
      | Except.ok _ =>
        (⟨ts, message⟩, evs ++ [CycleEvent.sent message, CycleEvent.slept])
      | Except.error e2 =>
        (⟨ts, message⟩, evs ++ [CycleEvent.tgErrorLogged (excRepr e2), CycleEvent.slept])

/-- One full pass of the `while True` loop of `main`. -/
def runCycle (chatId : String) (sendOk : Nat → Bool) (outcome : HttpOutcome)
    (st : LoopState) : LoopState × List CycleEvent :=
  handleAttempt chatId sendOk st (tryBody chatId sendOk outcome st)

/-- What `main` does before entering its loop. -/
inductive StartupOutcome where
  | exited (criticalLogMessage : String) (exitCode : Nat) (networkCallsMade : Nat)
  | enteredLoop
  deriving DecidableEq

/-- The startup guard of `main`: when `check_tokens()` is false it logs
EMPTY_TOKEN at critical level and calls `sys.exit()` — a `SystemExit` with
argument `None`, i.e. process exit code 0 — before the Telegram bot is
constructed and before any poll, so zero network calls are made. -/
def mainStartup (p t c : Option String) : StartupOutcome :=
  if check_tokens p t c then StartupOutcome.enteredLoop
  else StartupOutcome.exited EMPTY_TOKEN 0 0

/-- A review item with the given name in status approved. -/
def hwApproved (name : String) : Py :=
  Py.dict [("status", Py.str "approved"), ("homework_name", Py.str name)]

/-- A poll response carrying one approved review item named lab1. -/
def respLab1 : Py :=
  Py.dict [("homeworks", Py.list [hwApproved "lab1"]), ("current_date", Py.int 1700000000)]

/-- A poll response with an empty homeworks list. -/
def respEmpty : Py :=
  Py.dict [("homeworks", Py.list []), ("current_date", Py.int 1700000000)]

/-- The translated message for an approved review item named lab1. -/
def msgLab1 : String :=
  "Изменился статус проверки работы \"lab1\". Работа проверена: ревьюеру всё понравилось. Ура!"

/-- Helper: behaviour of the generic exception handler of `main` on an
attempt that escaped with a non-Telegram exception. -/
theorem handleAttempt_error (chatId : String) (sendOk : Nat → Bool) (st : LoopState)
    (ts : Py) (k : Nat) (evs : List CycleEvent) (e : Exc)
    (hNotTg : ∀ m, e ≠ Exc.telegramSendMessageError m) :
    handleAttempt chatId sendOk st (ts, k, evs, some e)
      = (if failureMessage e = st.last_error_message then
          (⟨ts, st.last_error_message⟩,
           evs ++ [CycleEvent.errorUnchangedLogged, CycleEvent.slept])
        else
          match send_message chatId (sendOk k) (failureMessage e) with
          | Except.ok _ =>
            (⟨ts, failureMessage e⟩, evs ++ [CycleEvent.sent (failureMessage e), CycleEvent.slept])
          | Except.error e2 =>
            (⟨ts, failureMessage e⟩,
             evs ++ [CycleEvent.tgErrorLogged (excRepr e2), CycleEvent.slept])) := by
  cases e <;> first | rfl | exact absurd rfl (hNotTg _)

/-- Helper: the RequestError that `get_api_answer` raises on transport
failure, as a function of the cursor and the transport error text. -/
def pollFailureError (ts : Py) (errText : String) : Exc :=
  Exc.requestError (REQUEST_ERROR_fmt ENDPOINT (pyStrOf (Py.dict [("from_date", ts)])) errText)

/-- C1 counterexample: the claim says two consecutive cycles producing the
same translated message trigger only one notification send.  In this
revision `main` keeps no Last Notified Status at all: starting from any
state, two identical successful cycles over the approved lab1 item each
emit a send of the same message, for a total of two sends, not one. -/
theorem C1_counterexample :
    (runCycle "chat" (fun _ => true) (HttpOutcome.success 200 respLab1) ⟨Py.int 0, ""⟩).2
      = [CycleEvent.sent msgLab1, CycleEvent.slept] ∧
    (runCycle "chat" (fun _ => true) (HttpOutcome.success 200 respLab1)
        (runCycle "chat" (fun _ => true) (HttpOutcome.success 200 respLab1) ⟨Py.int 0, ""⟩).1).2
      = [CycleEvent.sent msgLab1, CycleEvent.slept] ∧
    ((runCycle "chat" (fun _ => true) (HttpOutcome.success 200 respLab1) ⟨Py.int 0, ""⟩).2 ++
     (runCycle "chat" (fun _ => true) (HttpOutcome.success 200 respLab1)
        (runCycle "chat" (fun _ => true) (HttpOutcome.success 200 respLab1) ⟨Py.int 0, ""⟩).1).2).count
      (CycleEvent.sent msgLab1) = 2 :=
  ⟨rfl, rfl, rfl⟩

/-- C1 amended: on every pass the loop driver sends each translated message
unconditionally; the loop state holds no Last Notified Status, so a second
consecutive cycle producing the same translated message sends it again.
The statement is universal in the prior loop state, showing the send
decision does not consult any remembered message. -/
theorem C1_notification_sent_every_cycle (chatId : String) (st : LoopState) :
    runCycle chatId (fun _ => true) (HttpOutcome.success 200 respLab1) st
      = (⟨Py.int 1700000000, st.last_error_message⟩,
         [CycleEvent.sent msgLab1, CycleEvent.slept]) ∧
    runCycle chatId (fun _ => true) (HttpOutcome.success 200 respLab1)
        ⟨Py.int 1700000000, st.last_error_message⟩
      = (⟨Py.int 1700000000, st.last_error_message⟩,
         [CycleEvent.sent msgLab1, CycleEvent.slept]) :=
  ⟨rfl, rfl⟩

/-- C2: with both keys present and a status outside the verdict table, the
unknown-status branch of `parse_status` is reached, but the
`HOMEWORK_STATUS_ERROR.format(status=..., received_keys=...)` call omits
the `dictionary` field the template interpolates, so `str.format` raises
`KeyError` with argument `dictionary` and the intended
`HomeworkStatusError` is never constructed. -/
theorem C2_unknown_status_raises_format_keyerror :
    parse_status (Py.dict [("status", Py.str "pending"), ("homework_name", Py.str "lab1")])
      = Except.error (Exc.keyError "dictionary") ∧
    (∀ m, parse_status (Py.dict [("status", Py.str "pending"), ("homework_name", Py.str "lab1")])
      ≠ Except.error (Exc.homeworkStatusError m)) := by
  refine ⟨rfl, fun m h => ?_⟩
  have h2 : (Except.error (Exc.homeworkStatusError m) : Except Exc String)
      = Except.error (Exc.keyError "dictionary") := h.symm.trans rfl
  injection h2 with h3
  exact Exc.noConfusion h3

/-- C3 counterexample: the claim says the Cursor advances to the reported
current_date even when the homeworks sequence is empty.  The assignment
`timestamp = response.get(current_date)` sits inside the for loop, so a
successful poll returning an empty homeworks list leaves the cursor at its
old value 5 instead of the reported 1700000000. -/
theorem C3_counterexample :
    (runCycle "chat" (fun _ => true) (HttpOutcome.success 200 respEmpty) ⟨Py.int 5, ""⟩).1.timestamp
      = Py.int 5 ∧
    responseGet respEmpty "current_date" = Py.int 1700000000 ∧
    (runCycle "chat" (fun _ => true) (HttpOutcome.success 200 respEmpty) ⟨Py.int 5, ""⟩).1.timestamp
      ≠ responseGet respEmpty "current_date" :=
  ⟨rfl, rfl, fun h => by
    have h2 : Py.int 5 = Py.int 1700000000 := h
    injection h2 with h3
    exact absurd h3 (by decide)⟩

/-- Helper: the exception handlers and finally clause of `main` never alter
the timestamp handed over by the try block; every branch of `handleAttempt`
returns a state carrying exactly that timestamp. -/
theorem handleAttempt_timestamp (chatId : String) (sendOk : Nat → Bool) (st : LoopState)
    (ts : Py) (k : Nat) (evs : List CycleEvent) (exc : Option Exc) :
    (handleAttempt chatId sendOk st (ts, k, evs, exc)).1.timestamp = ts := by
  cases exc with
  | none => rfl
  | some e =>
    by_cases htg : ∀ m, e ≠ Exc.telegramSendMessageError m
    · rw [handleAttempt_error chatId sendOk st ts k evs e htg]
      split
      · rfl
      · split <;> rfl
    · push_neg at htg
      obtain ⟨m, hm⟩ := htg
      subst hm
      rfl

/-- Helper for C3: for arbitrary items and arbitrary send outcomes, the for
loop leaves the timestamp at its initial value when it sent no notification
and at current_date when it sent at least one (each successful send assigns
current_date, and an aborting exception preserves the latest value). -/
theorem forLoop_timestamp (chatId : String) (sendOk : Nat → Bool) (cd : Py) :
    ∀ (hws : List Py) (ts : Py) (k : Nat) (ts2 : Py) (k2 : Nat)
      (evs : List CycleEvent) (exc : Option Exc),
      forLoop chatId sendOk cd hws ts k = (ts2, k2, evs, exc) →
      ts2 = (if evs.isEmpty then ts else cd) := by
  intro hws
  induction hws with
  | nil =>
    intro ts k ts2 k2 evs exc hfor
    have hfor2 : (ts, k, ([] : List CycleEvent), (Option.none : Option Exc))
        = (ts2, k2, evs, exc) := hfor
    injection hfor2 with hA hrest1
    injection hrest1 with hB hrest2
    injection hrest2 with hC hD
    subst hA
    subst hC
    rfl
  | cons hw rest ih =>
    intro ts k ts2 k2 evs exc hfor
    obtain ⟨ts3, k3, evs3, exc3, hrec⟩ :
        ∃ a b c d, forLoop chatId sendOk cd rest cd (k + 1) = (a, b, c, d) :=
      ⟨_, _, _, _, rfl⟩
    have ih2 := ih cd (k + 1) ts3 k3 evs3 exc3 hrec
    cases hp : parse_status hw with
    | error e =>
      have hstep : forLoop chatId sendOk cd (hw :: rest) ts k = (ts, k, [], some e) := by
        simp only [forLoop, hp]
      rw [hstep] at hfor
      injection hfor with hA hrest1
      injection hrest1 with hB hrest2
      injection hrest2 with hC hD
      subst hA
      subst hC
      rfl
    | ok m =>
      cases hs : send_message chatId (sendOk k) m with
      | error e =>
        have hstep : forLoop chatId sendOk cd (hw :: rest) ts k = (ts, k + 1, [], some e) := by
          simp only [forLoop, hp, hs]
        rw [hstep] at hfor
        injection hfor with hA hrest1
        injection hrest1 with hB hrest2
        injection hrest2 with hC hD
        subst hA
        subst hC
        rfl
      | ok u =>
        have hstep : forLoop chatId sendOk cd (hw :: rest) ts k
            = (ts3, k3, CycleEvent.sent m :: evs3, exc3) := by
          simp only [forLoop, hp, hs, hrec]
        rw [hstep] at hfor
        injection hfor with hA hrest1
        injection hrest1 with hB hrest2
        injection hrest2 with hC hD
        subst hA
        subst hC
        rw [ite_self] at ih2
        simp [ih2]

/-- C3 amended: after a successful poll, the assignment of the server
current_date to the Cursor happens only inside the per-item loop, after
each successfully notified review item: for arbitrary item contents and
arbitrary send outcomes, the pass ends with the Cursor at current_date
exactly when at least one notification was sent, and with the Cursor
unchanged otherwise — in particular when the homeworks sequence is empty. -/
theorem C3_cursor_advances_iff_item_notified (chatId : String) (sendOk : Nat → Bool)
    (st : LoopState) (response : Py) (hws : List Py)
    (hcheck : check_response response = Except.ok hws)
    (ts2 : Py) (k2 : Nat) (evs : List CycleEvent) (exc : Option Exc)
    (hfor : forLoop chatId sendOk (responseGet response "current_date") hws st.timestamp 0
      = (ts2, k2, evs, exc)) :
    (runCycle chatId sendOk (HttpOutcome.success 200 response) st).1.timestamp = ts2 ∧
    ts2 = (if evs.isEmpty then st.timestamp else responseGet response "current_date") ∧
    (hws = [] → ts2 = st.timestamp) := by
  have h0 : tryBody chatId sendOk (HttpOutcome.success 200 response) st
      = (match check_response response with
         | Except.error e => (st.timestamp, 0, [], some e)
         | Except.ok homeworks =>
           forLoop chatId sendOk (responseGet response "current_date")
             homeworks st.timestamp 0) := rfl
  rw [hcheck] at h0
  have h0b : tryBody chatId sendOk (HttpOutcome.success 200 response) st
      = forLoop chatId sendOk (responseGet response "current_date") hws st.timestamp 0 := h0
  rw [hfor] at h0b
  refine ⟨?_, ?_, ?_⟩
  · have h1 : runCycle chatId sendOk (HttpOutcome.success 200 response) st
        = handleAttempt chatId sendOk st (ts2, k2, evs, exc) := by
      unfold runCycle
      rw [h0b]
    rw [h1, handleAttempt_timestamp]
  · exact forLoop_timestamp chatId sendOk (responseGet response "current_date")
      hws st.timestamp 0 ts2 k2 evs exc hfor
  · intro hnil
    subst hnil
    have hfor2 : (st.timestamp, (0 : Nat), ([] : List CycleEvent), (Option.none : Option Exc))
        = (ts2, k2, evs, exc) := hfor
    injection hfor2 with hA hrest1
    exact hA.symm

/-- C3 witness: the amended theorem instantiated twice — on the one-item
approved lab1 response with succeeding sends (one notification sent, cursor
ends at current_date), and on the empty homeworks response (no notification
sent, cursor left at its initial value 5). -/
theorem C3_cursor_advances_iff_item_notified_witness :
    ((runCycle "chat" (fun _ => true) (HttpOutcome.success 200 respLab1) ⟨Py.int 5, ""⟩).1.timestamp
        = Py.int 1700000000 ∧
      Py.int 1700000000
        = (if ([CycleEvent.sent msgLab1] : List CycleEvent).isEmpty then Py.int 5
           else responseGet respLab1 "current_date") ∧
      (([hwApproved "lab1"] : List Py) = [] → Py.int 1700000000 = Py.int 5)) ∧
    ((runCycle "chat" (fun _ => true) (HttpOutcome.success 200 respEmpty) ⟨Py.int 5, ""⟩).1.timestamp
        = Py.int 5 ∧
      Py.int 5
        = (if ([] : List CycleEvent).isEmpty then Py.int 5
           else responseGet respEmpty "current_date") ∧
      (([] : List Py) = [] → Py.int 5 = Py.int 5)) :=
  ⟨C3_cursor_advances_iff_item_notified "chat" (fun _ => true) ⟨Py.int 5, ""⟩ respLab1
      [hwApproved "lab1"] rfl (Py.int 1700000000) 1 [CycleEvent.sent msgLab1] Option.none rfl,
   C3_cursor_advances_iff_item_notified "chat" (fun _ => true) ⟨Py.int 5, ""⟩ respEmpty
      [] rfl (Py.int 5) 0 [] Option.none rfl⟩

/-- C4: a non-Telegram exception escaping the try block is formatted with
the fixed prefix and repr; when the text differs from last_error_message it
is recorded and sent, when it is identical the pass only logs the
LAST_ERROR info line and sends nothing; consequently a second consecutive
cycle raising the same exception emits no further notification. -/
theorem C4_error_dedup (chatId : String) (outcome : HttpOutcome) (st : LoopState)
    (ts : Py) (k : Nat) (evs : List CycleEvent) (e : Exc)
    (hTry : tryBody chatId (fun _ => true) outcome st = (ts, k, evs, some e))
    (hNotTg : ∀ m, e ≠ Exc.telegramSendMessageError m) :
    (failureMessage e ≠ st.last_error_message →
       runCycle chatId (fun _ => true) outcome st
         = (⟨ts, failureMessage e⟩,
            evs ++ [CycleEvent.sent (failureMessage e), CycleEvent.slept])) ∧
    (failureMessage e = st.last_error_message →
       runCycle chatId (fun _ => true) outcome st
         = (⟨ts, st.last_error_message⟩,
            evs ++ [CycleEvent.errorUnchangedLogged, CycleEvent.slept])) ∧
    (∀ outcome2 ts2 k2 evs2,
       tryBody chatId (fun _ => true) outcome2 ⟨ts, failureMessage e⟩ = (ts2, k2, evs2, some e) →
       runCycle chatId (fun _ => true) outcome2 ⟨ts, failureMessage e⟩
         = (⟨ts2, failureMessage e⟩,
            evs2 ++ [CycleEvent.errorUnchangedLogged, CycleEvent.slept])) := by
  refine ⟨fun hne => ?_, fun heq => ?_, fun outcome2 ts2 k2 evs2 hTry2 => ?_⟩
  · unfold runCycle
    rw [hTry, handleAttempt_error chatId _ st ts k evs e hNotTg, if_neg hne]
    rfl
  · unfold runCycle
    rw [hTry, handleAttempt_error chatId _ st ts k evs e hNotTg, if_pos heq]
  · unfold runCycle
    rw [hTry2, handleAttempt_error chatId _ _ ts2 k2 evs2 e hNotTg, if_pos rfl]

/-- C4 witness: two consecutive transport-failure cycles from a fresh
state; the first sends the formatted error text, the second, identical one
only logs. -/
theorem C4_error_dedup_witness :
    runCycle "chat" (fun _ => true) (HttpOutcome.failure "boom") ⟨Py.int 0, ""⟩
      = (⟨Py.int 0, failureMessage (pollFailureError (Py.int 0) "boom")⟩,
         [CycleEvent.sent (failureMessage (pollFailureError (Py.int 0) "boom")), CycleEvent.slept]) ∧
    runCycle "chat" (fun _ => true) (HttpOutcome.failure "boom")
        ⟨Py.int 0, failureMessage (pollFailureError (Py.int 0) "boom")⟩
      = (⟨Py.int 0, failureMessage (pollFailureError (Py.int 0) "boom")⟩,
         [CycleEvent.errorUnchangedLogged, CycleEvent.slept]) := by
  have h := C4_error_dedup "chat" (HttpOutcome.failure "boom") ⟨Py.int 0, ""⟩
    (Py.int 0) 0 [] (pollFailureError (Py.int 0) "boom") rfl (fun m h => Exc.noConfusion h)
  exact ⟨h.1 (by decide), h.2.2 (HttpOutcome.failure "boom") (Py.int 0) 0 [] rfl⟩

/-- C5: a TelegramSendMessageError raised by the Notifier is caught and
only logged, in both places it can arise: during a review-item
notification (first conjunct, where the pass ends in the error log and the
sleep, the state is untouched and no further send is attempted) and during
the error-notification attempt of the exception handler (second conjunct);
in both scenarios the pass returns normally and ends with the fixed sleep,
so the loop proceeds to the next cycle. -/
theorem C5_send_failure_contained (chatId : String) (st : LoopState)
    (hdiff : failureMessage (pollFailureError st.timestamp "boom") ≠ st.last_error_message) :
    runCycle chatId (fun _ => false) (HttpOutcome.success 200 respLab1) st
      = (st, [CycleEvent.tgErrorLogged
                (excRepr (Exc.telegramSendMessageError (SEND_MESSAGE_ERROR_fmt msgLab1 chatId))),
              CycleEvent.slept]) ∧
    runCycle chatId (fun _ => false) (HttpOutcome.failure "boom") st
      = (⟨st.timestamp, failureMessage (pollFailureError st.timestamp "boom")⟩,
         [CycleEvent.tgErrorLogged
            (excRepr (Exc.telegramSendMessageError
              (SEND_MESSAGE_ERROR_fmt (failureMessage (pollFailureError st.timestamp "boom")) chatId))),
          CycleEvent.slept]) := by
  constructor
  · rfl
  · unfold runCycle
    rw [show tryBody chatId (fun _ => false) (HttpOutcome.failure "boom") st
          = (st.timestamp, 0, [], some (pollFailureError st.timestamp "boom")) from rfl,
        handleAttempt_error chatId _ st st.timestamp 0 [] _ (fun m h => Exc.noConfusion h),
        if_neg hdiff]
    rfl

/-- C5 witness: both send-failure scenarios instantiated at a fresh state. -/
theorem C5_send_failure_contained_witness :
    runCycle "chat" (fun _ => false) (HttpOutcome.success 200 respLab1) ⟨Py.int 0, ""⟩
      = (⟨Py.int 0, ""⟩,
         [CycleEvent.tgErrorLogged
            (excRepr (Exc.telegramSendMessageError (SEND_MESSAGE_ERROR_fmt msgLab1 "chat"))),
          CycleEvent.slept]) ∧
    runCycle "chat" (fun _ => false) (HttpOutcome.failure "boom") ⟨Py.int 0, ""⟩
      = (⟨Py.int 0, failureMessage (pollFailureError (Py.int 0) "boom")⟩,
         [CycleEvent.tgErrorLogged
            (excRepr (Exc.telegramSendMessageError
              (SEND_MESSAGE_ERROR_fmt (failureMessage (pollFailureError (Py.int 0) "boom")) "chat"))),
          CycleEvent.slept]) :=
  C5_send_failure_contained "chat" ⟨Py.int 0, ""⟩ (by decide)

/-- C6: `get_api_answer` raises RequestError on transport failure, raises
StatusCodeError whose message embeds the observed status code whenever the
code is not 200, and on a 200 response returns the parsed body verbatim
with no shape validation. -/
theorem C6_get_api_answer_contract :
    (∀ ts err, get_api_answer ts (HttpOutcome.failure err)
        = Except.error (Exc.requestError
            (REQUEST_ERROR_fmt ENDPOINT (pyStrOf (Py.dict [("from_date", ts)])) err))) ∧
    (∀ ts code body, code ≠ 200 →
        get_api_answer ts (HttpOutcome.success code body)
          = Except.error (Exc.statusCodeError
              ("Запрос вернул некорректный статус " ++ toString code ++ "."))) ∧
    (∀ ts body, get_api_answer ts (HttpOutcome.success 200 body) = Except.ok body) := by
  refine ⟨fun ts err => rfl, fun ts code body h => ?_, fun ts body => rfl⟩
  simp only [get_api_answer]
  rw [if_pos h]
  rfl

/-- C6 witness: a 404 response produces the status-code error carrying 404. -/
theorem C6_get_api_answer_contract_witness :
    get_api_answer (Py.int 0) (HttpOutcome.success 404 Py.none)
      = Except.error (Exc.statusCodeError
          ("Запрос вернул некорректный статус " ++ toString 404 ++ ".")) :=
  C6_get_api_answer_contract.2.1 (Py.int 0) 404 Py.none (by decide)

/-- C7: `check_response` raises TypeError on a non-dict argument, KeyError
when the homeworks key is absent, TypeError when the homeworks value is
neither None nor a list, and otherwise returns the full homeworks list,
including the empty list. -/
theorem C7_check_response_contract :
    (∀ v : Py, v.isDict = false →
        check_response v = Except.error (Exc.typeError (TYPE_ERROR_fmt "dict" (pyTypeName v)))) ∧
    (∀ entries, entries.find? (fun kv => kv.1 == "homeworks") = Option.none →
        check_response (Py.dict entries)
          = Except.error (Exc.keyError (KEY_ERROR_fmt "response" (keysRepr entries)))) ∧
    (∀ entries v, pyDictGet entries "homeworks" = v → v.isNone = false → v.isList = false →
        check_response (Py.dict entries)
          = Except.error (Exc.typeError (TYPE_ERROR_fmt "list" (pyTypeName v)))) ∧
    (∀ entries xs, pyDictGet entries "homeworks" = Py.list xs →
        check_response (Py.dict entries) = Except.ok xs) := by
  refine ⟨fun v h => ?_, fun entries h => ?_, fun entries v hget hn hl => ?_, fun entries xs hget => ?_⟩
  · cases v <;> first | rfl | simp [Py.isDict] at h
  · simp only [check_response, pyDictGet]
    rw [h]
  · simp only [check_response]
    rw [hget]
    cases v
    · simp [Py.isNone] at hn
    · rfl
    · rfl
    · simp [Py.isList] at hl
    · rfl
  · simp only [check_response]
    rw [hget]

/-- C7 witness: all four branches instantiated on concrete responses,
including the empty-list success case. -/
theorem C7_check_response_contract_witness :
    check_response (Py.int 3)
      = Except.error (Exc.typeError (TYPE_ERROR_fmt "dict" "int")) ∧
    check_response (Py.dict [("current_date", Py.int 1)])
      = Except.error (Exc.keyError (KEY_ERROR_fmt "response" (keysRepr [("current_date", Py.int 1)]))) ∧
    check_response (Py.dict [("homeworks", Py.int 7)])
      = Except.error (Exc.typeError (TYPE_ERROR_fmt "list" "int")) ∧
    check_response (Py.dict [("homeworks", Py.list [])]) = Except.ok [] :=
  ⟨C7_check_response_contract.1 (Py.int 3) rfl,
   C7_check_response_contract.2.1 [("current_date", Py.int 1)] rfl,
   C7_check_response_contract.2.2.1 [("homeworks", Py.int 7)] (Py.int 7) rfl rfl rfl,
   C7_check_response_contract.2.2.2 [("homeworks", Py.list [])] [] rfl⟩

/-- C8: an approved review item named lab1 translates to exactly the fixed
template message with the approved verdict text. -/
theorem C8_approved_message :
    parse_status (Py.dict [("status", Py.str "approved"), ("homework_name", Py.str "lab1")])
      = Except.ok "Изменился статус проверки работы \"lab1\". Работа проверена: ревьюеру всё понравилось. Ура!" :=
  rfl

/-- C9: `check_tokens` is true exactly when all three credential values are
present and non-empty, and when it is false `main` logs EMPTY_TOKEN at
critical level and exits cleanly (sys.exit with no argument, exit code 0)
with zero network calls made. -/
theorem C9_token_guard :
    (∀ p t c : Option String,
        check_tokens p t c = true ↔
          ((∃ s, p = some s ∧ s ≠ "") ∧ (∃ s, t = some s ∧ s ≠ "") ∧ (∃ s, c = some s ∧ s ≠ ""))) ∧
    (∀ p t c, check_tokens p t c = false →
        mainStartup p t c = StartupOutcome.exited EMPTY_TOKEN 0 0) := by
  constructor
  · intro p t c
    cases p <;> cases t <;> cases c <;>
      simp [check_tokens, truthyStr, and_assoc]
  · intro p t c h
    simp [mainStartup, h]

/-- C9 witness: a missing first credential aborts startup with a clean
exit and no network calls. -/
theorem C9_token_guard_witness :
    mainStartup Option.none (some "x") (some "y") = StartupOutcome.exited EMPTY_TOKEN 0 0 :=
  C9_token_guard.2 Option.none (some "x") (some "y") rfl

/-- C10: a key bound to None behaves like an absent key at the public
interface, because both functions read it with `.get` and test `is None`:
`check_response` raises the missing-key KeyError when homeworks is present
but bound to None, and `parse_status` raises the missing-key KeyError when
status or homework_name is present but bound to None. -/
theorem C10_none_value_treated_as_absent :
    (∀ rest, check_response (Py.dict (("homeworks", Py.none) :: rest))
        = Except.error (Exc.keyError
            (KEY_ERROR_fmt "response" (keysRepr (("homeworks", Py.none) :: rest))))) ∧
    (∀ v rest, parse_status (Py.dict (("status", Py.none) :: ("homework_name", v) :: rest))
        = Except.error (Exc.keyError
            (KEY_ERROR_fmt "homework" (keysRepr (("status", Py.none) :: ("homework_name", v) :: rest))))) ∧
    (∀ s rest, parse_status (Py.dict (("status", s) :: ("homework_name", Py.none) :: rest))
        = Except.error (Exc.keyError
            (KEY_ERROR_fmt "homework" (keysRepr (("status", s) :: ("homework_name", Py.none) :: rest))))) := by
  refine ⟨fun rest => rfl, fun v rest => rfl, fun s rest => ?_⟩
  cases s <;> rfl
